import Mathlib

/-!
Shallow embedding of the two model-adapter classes of this repository
(`classic_or_regression_models/LightGBM.py` and
`classic_or_regression_models/SVM.py`) and proofs about their contract.

Python values that flow through the wrappers (keyword arguments, the `task`
attribute) are modelled by `Val`; keyword-argument dictionaries by
insertion-ordered association lists (`Params`); exceptions by `Except PyErr`
or, for methods that mutate an existing object before raising, by a result
paired with an `Option PyErr`.  The delegated estimators (`LGBMClassifier`
and `LGBMRegressor`, `SVC` and `SVR`) are opaque to the wrappers: they are
modelled by `Model`, which records which concrete estimator class was
instantiated, the merged keyword arguments it received, and whether `fit`
has been called on this instance.  Numerical behaviour of the external
libraries (the actual predictions) is kept abstract: theorems that need it
quantify over an arbitrary prediction function for delegates.
-/

/-- A Python value as the wrapper layer sees it. -/
inductive Val where
  | int (n : Int)
  | rat (q : ℚ)
  | str (s : String)
  | bool (b : Bool)
  | pyNone
  deriving DecidableEq

/-- A Python keyword-argument dictionary: an insertion-ordered association
list.  Dictionaries reachable in Python have pairwise distinct keys. -/
abbrev Params := List (String × Val)

namespace Params

/-- Membership test `k in d` for a Python dict. -/
def hasKey (ps : Params) (k : String) : Bool := ps.any (fun kv => kv.1 == k)

/-- Assignment `d[k] = v`: an existing key keeps its position and gets the
new value, a fresh key is appended at the end. -/
def setKey (ps : Params) (k : String) (v : Val) : Params :=
  if hasKey ps k then ps.map (fun kv => if kv.1 == k then (k, v) else kv)
  else ps ++ [(k, v)]

/-- `d.get(k, v0)`: the value at `k`, or `v0` when the key is absent. -/
def lookupD (ps : Params) (k : String) (v0 : Val) : Val := (ps.lookup k).getD v0

/-- The dictionary without key `k`. -/
def eraseKey (ps : Params) (k : String) : Params := ps.filter (fun kv => kv.1 != k)

/-- The dict display `\x7b**d1, **d2\x7d`: entries of `d2` override entries of
`d1` with the same key, fresh keys are appended in order. -/
def union (d1 d2 : Params) : Params :=
  d2.foldl (fun acc kv => setKey acc kv.1 kv.2) d1

end Params

deriving instance DecidableEq for Except

/-- The Python exceptions the wrapper layer can raise. -/
inductive PyErr where
  | valueError      -- the invalid-task error raised by both constructors
  | typeError       -- raised by call semantics, e.g. a duplicated keyword argument
  | attributeError  -- a missing attribute, e.g. predict_proba unavailable
  deriving DecidableEq

/-- Python call semantics for `f(k1=v1, ..., kn=vn, **extra)`: the call raises
a TypeError when `extra` repeats one of the explicit keywords (before the
callee runs), otherwise the callee receives the combined dictionary. -/
def pyKwargs (explicit extra : Params) : Except PyErr Params :=
  if extra.any (fun kv => Params.hasKey explicit kv.1) then .error .typeError
  else .ok (explicit ++ extra)

/-- Python `str.lower()` on the ASCII strings the wrappers deal in:
lowercase every character. -/
def pyLower (s : String) : String := ⟨s.data.map Char.toLower⟩

/-- `x.lower()`: lowercases a string, raises AttributeError on any other
value. -/
def Val.lowerStr : Val → Except PyErr String
  | .str s => .ok (pyLower s)
  | _ => .error .attributeError

/-- The explicit keyword arguments `LightGBM.__init__` passes to both
`LGBMClassifier` and `LGBMRegressor` (the two branches use the same list). -/
def lgbmDefaults : Params :=
  [("n_estimators", .int 100), ("learning_rate", .rat 0.1),
   ("max_depth", .int (-1)), ("num_leaves", .int 31),
   ("boosting_type", .str "gbdt"), ("subsample", .rat 0.8),
   ("colsample_bytree", .rat 0.8), ("random_state", .int 42)]

/-- The explicit keyword arguments `SVMModel.__init__` passes to `SVC`. -/
def svcDefaults : Params :=
  [("kernel", .str "rbf"), ("C", .rat 1), ("gamma", .str "scale"),
   ("probability", .bool true), ("random_state", .int 42)]

/-- The explicit keyword arguments `SVMModel.__init__` passes to `SVR`. -/
def svrDefaults : Params :=
  [("kernel", .str "rbf"), ("C", .rat 1), ("gamma", .str "scale"),
   ("epsilon", .rat 0.1)]

/-- Which concrete external estimator class a delegate is an instance of. -/
inductive EstimatorKind where
  | lgbmClassifier | lgbmRegressor | svc | svr
  deriving DecidableEq

/-- An external estimator instance, opaque to the wrappers: the class that was
instantiated, the keyword arguments it received, and whether this instance has
been fitted.  Fitted state beyond the flag lives inside the external library
and is not modelled. -/
structure Model where
  kind : EstimatorKind
  params : Params
  fitted : Bool
  deriving DecidableEq

/-- A feature matrix, as handed through to the delegate. -/
abbrev Mat := List (List ℚ)

/-- Whether `hasattr(m, "predict_proba")` holds of the delegate.  The
classifier classes expose the attribute (`SVC` only when constructed with
`probability=True`, which gates it); the regressor classes do not.  This
models the external libraries, not repository code. -/
def Model.hasPredictProba (m : Model) : Bool :=
  match m.kind with
  | .lgbmClassifier => true
  | .lgbmRegressor => false
  | .svc => m.params.lookup "probability" == some (.bool true)
  | .svr => false

/-- The opaque result of `m.predict_proba(X)` for delegate `m` on input `X`. -/
structure Proba where
  ofModel : Model
  input : Mat
  deriving DecidableEq

/-- Attribute lookup plus call `m.predict_proba(X)` on the delegate: an
AttributeError when the attribute is missing. -/
def Model.callPredictProba (m : Model) (X : Mat) : Except PyErr Proba :=
  if m.hasPredictProba then .ok ⟨m, X⟩ else .error .attributeError

/-- What a wrapper `fit` passes on to the delegate's `fit`. -/
inductive FitCall where
  | plain (X : Mat) (y : List ℚ)
  | earlyStopping (X : Mat) (y : List ℚ) (evalSet : List Val) (rounds : Int)
      (verbose : Bool)
  deriving DecidableEq

/-- Python truthiness of the optional `eval_set` argument, which is `None` or
a list of evaluation pairs: an empty list is falsy. -/
def optListTruthy : Option (List Val) → Bool
  | some l => !l.isEmpty
  | none => false

/-- Python truthiness of the optional `early_stopping_rounds` argument, which
is `None` or an int: zero is falsy. -/
def optIntTruthy : Option Int → Bool
  | some n => n != 0
  | none => false

/-- `sklearn.metrics.accuracy_score` on label vectors, modelled from the
external library's documented behaviour: the fraction of positions where the
two vectors agree; inconsistent lengths raise a ValueError. -/
def accuracy_score (yTrue yPred : List ℚ) : Except PyErr ℚ :=
  if yTrue.length = yPred.length then
    .ok ((((yTrue.zip yPred).countP (fun p => decide (p.1 = p.2))) : ℚ) /
      (yTrue.length : ℚ))
  else .error .valueError

/-- `sklearn.metrics.mean_squared_error`, modelled from the external
library's documented behaviour: the mean of the squared differences;
inconsistent lengths raise a ValueError. -/
def mean_squared_error (yTrue yPred : List ℚ) : Except PyErr ℚ :=
  if yTrue.length = yPred.length then
    .ok ((((yTrue.zip yPred).map (fun p => (p.1 - p.2) ^ 2)).sum) /
      (yTrue.length : ℚ))
  else .error .valueError

/-- The `LightGBM` wrapper object: its `task`, `lgbm_params` and `model`
attributes. -/
structure LightGBM where
  task : Val
  lgbm_params : Params
  model : Model
  deriving DecidableEq

namespace LightGBM

/-- The dispatch on the already-lowercased task in `LightGBM.__init__`: builds
the delegate from the explicit defaults plus the caller's keyword arguments,
or raises the invalid-task ValueError (source message: Task must be
one of classification or regression). -/
def buildModel (t : String) (ps : Params) : Except PyErr Model :=
  if t = "classification" then
    match pyKwargs lgbmDefaults ps with
    | .ok merged => .ok ⟨.lgbmClassifier, merged, false⟩
    | .error e => .error e
  else if t = "regression" then
    match pyKwargs lgbmDefaults ps with
    | .ok merged => .ok ⟨.lgbmRegressor, merged, false⟩
    | .error e => .error e
  else .error .valueError

/-- A fresh call `LightGBM(task=task, **ps)`.  The call itself raises a
TypeError when `ps` repeats the `task` keyword; then `__init__` lowercases
the task, stores the attributes and builds the delegate. -/
def construct (task : Val) (ps : Params) : Except PyErr LightGBM :=
  if Params.hasKey ps "task" then .error .typeError
  else
    match Val.lowerStr task with
    | .error e => .error e
    | .ok t =>
      match buildModel t ps with
      | .ok m => .ok ⟨.str t, ps, m⟩
      | .error e => .error e

/-- A call `LightGBM(**d)`: `task` is bound from the dictionary when present
(to its declared default `"classification"` otherwise) and the remaining
entries become the extra keyword arguments. -/
def constructFromDict (d : Params) : Except PyErr LightGBM :=
  construct (Params.lookupD d "task" (.str "classification"))
    (Params.eraseKey d "task")

/-- `__init__` re-run on an existing object, as `set_params` does: returns
the updated object together with the raised exception, if any.  Attribute
assignments performed before a raise are kept; Python does not roll them
back. -/
def initOn (a : LightGBM) (task : Val) (ps : Params) : LightGBM × Option PyErr :=
  match Val.lowerStr task with
  | .error e => (a, some e)
  | .ok t =>
    match buildModel t ps with
    | .ok m => (⟨.str t, ps, m⟩, none)
    | .error e => ({ a with task := .str t, lgbm_params := ps }, some e)

/-- The update loop of `set_params`: a `task` entry is stored on the `task`
attribute, every other entry into `lgbm_params`. -/
def applyUpdates (a : LightGBM) (ps : Params) : LightGBM :=
  ps.foldl (fun b kv =>
    if kv.1 == "task" then { b with task := kv.2 }
    else { b with lgbm_params := Params.setKey b.lgbm_params kv.1 kv.2 }) a

/-- `set_params(**ps)`: runs the update loop, then re-runs `__init__` with the
stored attributes.  That re-init call site would raise a TypeError if
`lgbm_params` held a `task` key; the update loop never puts one there. -/
def setParams (a : LightGBM) (ps : Params) : LightGBM × Option PyErr :=
  if Params.hasKey (applyUpdates a ps).lgbm_params "task" then
    (applyUpdates a ps, some .typeError)
  else
    initOn (applyUpdates a ps) (applyUpdates a ps).task
      (applyUpdates a ps).lgbm_params

/-- `get_params()`: the dict display `\x7b"task": self.task,
**self.lgbm_params\x7d`. -/
def get_params (a : LightGBM) : Params :=
  Params.union [("task", a.task)] a.lgbm_params

/-- `predict_proba(X)`: delegates for classification tasks, raises an
AttributeError otherwise. -/
def predict_proba (a : LightGBM) (X : Mat) : Except PyErr Proba :=
  if a.task = .str "classification" then Model.callPredictProba a.model X
  else .error .attributeError

/-- `fit(X, y, eval_set, early_stopping_rounds)`: when both optional
arguments are truthy they are passed through (with `verbose=False`) for
early stopping, otherwise a plain delegate fit.  Returns the updated object
and the delegate call that was made. -/
def fit (a : LightGBM) (X : Mat) (y : List ℚ)
    (evalSet : Option (List Val)) (rounds : Option Int) : LightGBM × FitCall :=
  if optListTruthy evalSet && optIntTruthy rounds then
    ({ a with model := { a.model with fitted := true } },
      .earlyStopping X y (evalSet.getD []) (rounds.getD 0) false)
  else
    ({ a with model := { a.model with fitted := true } }, .plain X y)

/-- `evaluate(X, y)`, given the external library's prediction function `lib`
for delegates: accuracy for classification, mean squared error for
regression, and Python's implicit `None` result for any other stored task. -/
def evaluate (lib : Model → Mat → List ℚ) (a : LightGBM) (X : Mat)
    (y : List ℚ) : Except PyErr (Option ℚ) :=
  if a.task = .str "classification" then
    match accuracy_score y (lib a.model X) with
    | .ok v => .ok (some v)
    | .error e => .error e
  else if a.task = .str "regression" then
    match mean_squared_error y (lib a.model X) with
    | .ok v => .ok (some v)
    | .error e => .error e
  else .ok none

end LightGBM

/-- The `SVMModel` wrapper object: its `task`, `svm_params` and `model`
attributes. -/
structure SVMModel where
  task : Val
  svm_params : Params
  model : Model
  deriving DecidableEq

namespace SVMModel

/-- The dispatch on the already-lowercased task in `SVMModel.__init__`:
builds `SVC` or `SVR` from the respective explicit defaults plus the
caller's keyword arguments, or raises the invalid-task ValueError. -/
def buildModel (t : String) (ps : Params) : Except PyErr Model :=
  if t = "classification" then
    match pyKwargs svcDefaults ps with
    | .ok merged => .ok ⟨.svc, merged, false⟩
    | .error e => .error e
  else if t = "regression" then
    match pyKwargs svrDefaults ps with
    | .ok merged => .ok ⟨.svr, merged, false⟩
    | .error e => .error e
  else .error .valueError

/-- A fresh call `SVMModel(task=task, **ps)`; the same call semantics as for
the boosted-tree wrapper. -/
def construct (task : Val) (ps : Params) : Except PyErr SVMModel :=
  if Params.hasKey ps "task" then .error .typeError
  else
    match Val.lowerStr task with
    | .error e => .error e
    | .ok t =>
      match buildModel t ps with
      | .ok m => .ok ⟨.str t, ps, m⟩
      | .error e => .error e

/-- A call `SVMModel(**d)`. -/
def constructFromDict (d : Params) : Except PyErr SVMModel :=
  construct (Params.lookupD d "task" (.str "classification"))
    (Params.eraseKey d "task")

/-- `__init__` re-run on an existing object, as `set_params` does. -/
def initOn (a : SVMModel) (task : Val) (ps : Params) : SVMModel × Option PyErr :=
  match Val.lowerStr task with
  | .error e => (a, some e)
  | .ok t =>
    match buildModel t ps with
    | .ok m => (⟨.str t, ps, m⟩, none)
    | .error e => ({ a with task := .str t, svm_params := ps }, some e)

/-- The update loop of `set_params`, mirroring the boosted-tree wrapper. -/
def applyUpdates (a : SVMModel) (ps : Params) : SVMModel :=
  ps.foldl (fun b kv =>
    if kv.1 == "task" then { b with task := kv.2 }
    else { b with svm_params := Params.setKey b.svm_params kv.1 kv.2 }) a

/-- `set_params(**ps)`, mirroring the boosted-tree wrapper. -/
def setParams (a : SVMModel) (ps : Params) : SVMModel × Option PyErr :=
  if Params.hasKey (applyUpdates a ps).svm_params "task" then
    (applyUpdates a ps, some .typeError)
  else
    initOn (applyUpdates a ps) (applyUpdates a ps).task
      (applyUpdates a ps).svm_params

/-- `get_params()`: the dict display `\x7b"task": self.task,
**self.svm_params\x7d`. -/
def get_params (a : SVMModel) : Params :=
  Params.union [("task", a.task)] a.svm_params

/-- `predict_proba(X)`: delegates when the task is classification and the
delegate has the attribute, raises an AttributeError otherwise. -/
def predict_proba (a : SVMModel) (X : Mat) : Except PyErr Proba :=
  if a.task = .str "classification" ∧ a.model.hasPredictProba = true then
    Model.callPredictProba a.model X
  else .error .attributeError

/-- `fit(X_train, y_train)`: always a plain delegate fit; the method has no
other parameters. -/
def fit (a : SVMModel) (X : Mat) (y : List ℚ) : SVMModel × FitCall :=
  ({ a with model := { a.model with fitted := true } }, .plain X y)

/-- A call to this wrapper's `fit` that supplies the keyword arguments
`eval_set` or `early_stopping_rounds`: since the method signature is
`fit(self, X_train, y_train)`, Python rejects any such call with a
TypeError (unexpected keyword argument) before the body runs. -/
def fitKw (a : SVMModel) (X : Mat) (y : List ℚ)
    (evalSet : Option (List Val)) (rounds : Option Int) :
    Except PyErr (SVMModel × FitCall) :=
  if evalSet.isSome || rounds.isSome then .error .typeError
  else .ok (fit a X y)

/-- `evaluate(X, y)`, given the external library's prediction function `lib`
for delegates. -/
def evaluate (lib : Model → Mat → List ℚ) (a : SVMModel) (X : Mat)
    (y : List ℚ) : Except PyErr (Option ℚ) :=
  if a.task = .str "classification" then
    match accuracy_score y (lib a.model X) with
    | .ok v => .ok (some v)
    | .error e => .error e
  else if a.task = .str "regression" then
    match mean_squared_error y (lib a.model X) with
    | .ok v => .ok (some v)
    | .error e => .error e
  else .ok none

end SVMModel

/-! ### Dictionary lemmas -/

namespace Params

theorem hasKey_false_iff (ps : Params) (k : String) :
    hasKey ps k = false ↔ ∀ kv ∈ ps, kv.1 ≠ k := by
  simp [hasKey]

theorem setKey_cons_ne (k k2 : String) (v v2 : Val) (acc : Params)
    (h : k ≠ k2) :
    setKey ((k, v) :: acc) k2 v2 = (k, v) :: setKey acc k2 v2 := by
  have hb : (k == k2) = false := by simp [h]
  simp only [setKey, hasKey, List.any_cons, hb, Bool.false_or]
  by_cases hacc : (List.any acc fun kv => kv.1 == k2) = true
  · simp [hacc, h]
  · simp [hacc, h]

theorem foldl_setKey_cons (ps : Params) (k : String) (v : Val) (acc : Params)
    (h : ∀ kv ∈ ps, kv.1 ≠ k) :
    ps.foldl (fun b kv => setKey b kv.1 kv.2) ((k, v) :: acc) =
      (k, v) :: ps.foldl (fun b kv => setKey b kv.1 kv.2) acc := by
  induction ps generalizing acc with
  | nil => rfl
  | cons kv ps ih =>
    simp only [List.foldl_cons]
    rw [setKey_cons_ne _ _ _ _ _ (Ne.symm (h kv (by simp)))]
    exact ih _ (fun kv2 hm => h kv2 (by simp [hm]))

theorem union_nil (ps : Params) (h : (ps.map Prod.fst).Nodup) :
    union [] ps = ps := by
  induction ps with
  | nil => rfl
  | cons kv ps ih =>
    have h2 := h
    rw [List.map_cons, List.nodup_cons] at h2
    obtain ⟨hout, hnd⟩ := h2
    have hstep : ∀ kv2 ∈ ps, kv2.1 ≠ kv.1 := by
      intro kv2 hm he
      exact hout (he ▸ List.mem_map_of_mem Prod.fst hm)
    calc union [] (kv :: ps)
        = ps.foldl (fun b kv2 => setKey b kv2.1 kv2.2) [(kv.1, kv.2)] := rfl
      _ = (kv.1, kv.2) :: ps.foldl (fun b kv2 => setKey b kv2.1 kv2.2) [] :=
          foldl_setKey_cons ps kv.1 kv.2 [] hstep
      _ = kv :: union [] ps := rfl
      _ = kv :: ps := by rw [ih hnd]

theorem union_single (k : String) (v : Val) (ps : Params)
    (hk : hasKey ps k = false) (hnd : (ps.map Prod.fst).Nodup) :
    union [(k, v)] ps = (k, v) :: ps := by
  have h := (hasKey_false_iff ps k).mp hk
  calc union [(k, v)] ps
      = (k, v) :: ps.foldl (fun b kv => setKey b kv.1 kv.2) [] :=
        foldl_setKey_cons ps k v [] h
    _ = (k, v) :: ps := by rw [show ps.foldl (fun b kv => setKey b kv.1 kv.2) [] = union [] ps from rfl, union_nil ps hnd]

theorem eraseKey_of_no_key (ps : Params) (k : String)
    (h : hasKey ps k = false) :
    eraseKey ps k = ps := by
  have h2 := (hasKey_false_iff ps k).mp h
  exact List.filter_eq_self.mpr (fun kv hm => by simpa using h2 kv hm)

end Params

/-! ### Facts about the two recognized task strings -/

theorem pyLower_classification : pyLower "classification" = "classification" := by
  decide

theorem pyLower_regression : pyLower "regression" = "regression" := by
  decide

/-! ### Inversion and forward lemmas for the boosted-tree wrapper -/

namespace LightGBM

theorem buildModel_ok_fitted {t : String} {ps : Params} {m : Model}
    (h : buildModel t ps = .ok m) : m.fitted = false := by
  unfold buildModel pyKwargs at h
  repeat' split at h
  all_goals first
    | (cases h; rfl)
    | exact Except.noConfusion h

theorem construct_ok {t : Val} {ps : Params} {a : LightGBM}
    (h : construct t ps = .ok a) :
    Params.hasKey ps "task" = false ∧ a.lgbm_params = ps ∧
    a.model.fitted = false ∧
    (ps.any fun kv => Params.hasKey lgbmDefaults kv.1) = false ∧
    a.model.params = lgbmDefaults ++ ps ∧
    ((a.task = .str "classification" ∧ a.model.kind = .lgbmClassifier) ∨
     (a.task = .str "regression" ∧ a.model.kind = .lgbmRegressor)) := by
  unfold construct at h
  split at h
  · exact Except.noConfusion h
  · rename_i hk
    have hk2 : Params.hasKey ps "task" = false := by
      simpa using hk
    cases t with
    | str s =>
      simp only [Val.lowerStr] at h
      by_cases hcls : pyLower s = "classification"
      · rw [hcls] at h
        unfold buildModel pyKwargs at h
        rw [if_pos rfl] at h
        by_cases hcol : (ps.any fun kv => Params.hasKey lgbmDefaults kv.1) = true
        · rw [if_pos hcol] at h
          exact Except.noConfusion h
        · rw [if_neg hcol] at h
          cases h
          exact ⟨hk2, rfl, rfl, by simpa using hcol, rfl, .inl ⟨rfl, rfl⟩⟩
      · by_cases hreg : pyLower s = "regression"
        · rw [hreg] at h
          unfold buildModel pyKwargs at h
          rw [if_neg (by decide), if_pos rfl] at h
          by_cases hcol : (ps.any fun kv => Params.hasKey lgbmDefaults kv.1) = true
          · rw [if_pos hcol] at h
            exact Except.noConfusion h
          · rw [if_neg hcol] at h
            cases h
            exact ⟨hk2, rfl, rfl, by simpa using hcol, rfl, .inr ⟨rfl, rfl⟩⟩
        · unfold buildModel at h
          rw [if_neg hcls, if_neg hreg] at h
          exact Except.noConfusion h
    | int n => exact Except.noConfusion h
    | rat q => exact Except.noConfusion h
    | bool b => exact Except.noConfusion h
    | pyNone => exact Except.noConfusion h

theorem construct_classification (ps : Params)
    (hk : Params.hasKey ps "task" = false)
    (hcol : (ps.any fun kv => Params.hasKey lgbmDefaults kv.1) = false) :
    construct (.str "classification") ps =
      .ok ⟨.str "classification", ps,
        ⟨.lgbmClassifier, lgbmDefaults ++ ps, false⟩⟩ := by
  unfold construct
  rw [if_neg (by simp [hk])]
  simp only [Val.lowerStr, pyLower_classification]
  unfold buildModel pyKwargs
  rw [if_pos rfl, if_neg (by simp [hcol])]

theorem construct_regression (ps : Params)
    (hk : Params.hasKey ps "task" = false)
    (hcol : (ps.any fun kv => Params.hasKey lgbmDefaults kv.1) = false) :
    construct (.str "regression") ps =
      .ok ⟨.str "regression", ps,
        ⟨.lgbmRegressor, lgbmDefaults ++ ps, false⟩⟩ := by
  unfold construct
  rw [if_neg (by simp [hk])]
  simp only [Val.lowerStr, pyLower_regression]
  unfold buildModel pyKwargs
  rw [if_neg (by decide), if_pos rfl, if_neg (by simp [hcol])]

theorem applyUpdates_cons (a : LightGBM) (kv : String × Val) (ps : Params) :
    applyUpdates a (kv :: ps) =
      applyUpdates (if kv.1 == "task" then { a with task := kv.2 }
        else { a with lgbm_params := Params.setKey a.lgbm_params kv.1 kv.2 })
        ps := rfl

theorem applyUpdates_model (a : LightGBM) (ps : Params) :
    (applyUpdates a ps).model = a.model := by
  induction ps generalizing a with
  | nil => rfl
  | cons kv ps ih =>
    rw [applyUpdates_cons]
    by_cases hk : (kv.1 == "task") = true
    · rw [if_pos hk]
      exact ih _
    · rw [if_neg hk]
      exact ih _

theorem applyUpdates_task_keep (a : LightGBM) (ps : Params)
    (h : ∀ kv ∈ ps, kv.1 ≠ "task") :
    (applyUpdates a ps).task = a.task := by
  induction ps generalizing a with
  | nil => rfl
  | cons kv ps ih =>
    have hne : (kv.1 == "task") = false := by
      simp [h kv (by simp)]
    rw [applyUpdates_cons, if_neg (by simp [hne])]
    exact ih _ (fun kv2 hm => h kv2 (by simp [hm]))

theorem initOn_ok {a a2 : LightGBM} {task : Val} {ps : Params}
    (h : initOn a task ps = (a2, none)) :
    ∃ s, task = .str s ∧ a2.task = .str (pyLower s) ∧ a2.lgbm_params = ps ∧
      buildModel (pyLower s) ps = .ok a2.model := by
  cases task with
  | str s =>
    simp only [initOn, Val.lowerStr] at h
    cases hb : buildModel (pyLower s) ps with
    | ok m =>
      rw [hb] at h
      rw [Prod.mk.injEq] at h
      obtain ⟨h1, h2⟩ := h
      subst h1
      exact ⟨s, rfl, rfl, rfl, hb⟩
    | error e =>
      rw [hb] at h
      have h2 := congrArg Prod.snd h
      simp at h2
  | int n => simp [initOn, Val.lowerStr] at h
  | rat q => simp [initOn, Val.lowerStr] at h
  | bool b => simp [initOn, Val.lowerStr] at h
  | pyNone => simp [initOn, Val.lowerStr] at h

theorem setParams_ok {a a2 : LightGBM} {ps : Params}
    (h : setParams a ps = (a2, none)) :
    ∃ s, a2.task = .str s ∧ buildModel s a2.lgbm_params = .ok a2.model ∧
      a2.model.fitted = false := by
  unfold setParams at h
  split at h
  · exact absurd (congrArg Prod.snd h) (by simp)
  · obtain ⟨s, hs, ht, hp, hb⟩ := initOn_ok h
    rw [← hp] at hb
    exact ⟨pyLower s, ht, hb, buildModel_ok_fitted hb⟩

end LightGBM

theorem Params.hasKey_setKey_ne (ps : Params) (k2 k : String) (v : Val)
    (h : Params.hasKey ps k = false) (hne : k2 ≠ k) :
    Params.hasKey (Params.setKey ps k2 v) k = false := by
  rw [Params.hasKey_false_iff] at h ⊢
  intro kv hm
  unfold Params.setKey at hm
  by_cases hk : Params.hasKey ps k2 = true
  · rw [if_pos hk] at hm
    obtain ⟨kv0, hkv0, rfl⟩ := List.mem_map.mp hm
    by_cases h0 : (kv0.1 == k2) = true
    · simp only [h0, if_true]
      exact hne
    · simp only [h0, if_false]
      exact h kv0 hkv0
  · rw [if_neg hk] at hm
    rcases List.mem_append.mp hm with hm2 | hm2
    · exact h kv hm2
    · have : kv = (k2, v) := by simpa using hm2
      rw [this]
      exact hne

namespace LightGBM

theorem applyUpdates_params_no_task (a : LightGBM) (ps : Params)
    (h : Params.hasKey a.lgbm_params "task" = false) :
    Params.hasKey (applyUpdates a ps).lgbm_params "task" = false := by
  induction ps generalizing a with
  | nil => exact h
  | cons kv ps ih =>
    rw [applyUpdates_cons]
    by_cases hk : (kv.1 == "task") = true
    · rw [if_pos hk]
      exact ih _ h
    · rw [if_neg hk]
      exact ih _ (Params.hasKey_setKey_ne _ _ _ _ h (by simpa using hk))

theorem initOn_valueError (a : LightGBM) (s : String) (ps : Params)
    (h1 : pyLower s ≠ "classification") (h2 : pyLower s ≠ "regression") :
    initOn a (.str s) ps =
      ({ a with task := .str (pyLower s), lgbm_params := ps },
        some .valueError) := by
  simp only [initOn, Val.lowerStr]
  rw [show buildModel (pyLower s) ps = .error .valueError from by
    unfold buildModel
    rw [if_neg h1, if_neg h2]]

end LightGBM

/-! ### Inversion and forward lemmas for the SVM wrapper -/

namespace SVMModel

theorem svm_buildModel_ok_fitted {t : String} {ps : Params} {m : Model}
    (h : buildModel t ps = .ok m) : m.fitted = false := by
  unfold buildModel pyKwargs at h
  repeat' split at h
  all_goals first
    | (cases h; rfl)
    | exact Except.noConfusion h

theorem svm_construct_ok {t : Val} {ps : Params} {a : SVMModel}
    (h : construct t ps = .ok a) :
    Params.hasKey ps "task" = false ∧ a.svm_params = ps ∧
    a.model.fitted = false ∧
    ((a.task = .str "classification" ∧ a.model.kind = .svc ∧
        (ps.any fun kv => Params.hasKey svcDefaults kv.1) = false ∧
        a.model.params = svcDefaults ++ ps) ∨
     (a.task = .str "regression" ∧ a.model.kind = .svr ∧
        (ps.any fun kv => Params.hasKey svrDefaults kv.1) = false ∧
        a.model.params = svrDefaults ++ ps)) := by
  unfold construct at h
  split at h
  · exact Except.noConfusion h
  · rename_i hk
    have hk2 : Params.hasKey ps "task" = false := by
      simpa using hk
    cases t with
    | str s =>
      simp only [Val.lowerStr] at h
      by_cases hcls : pyLower s = "classification"
      · rw [hcls] at h
        unfold buildModel pyKwargs at h
        rw [if_pos rfl] at h
        by_cases hcol : (ps.any fun kv => Params.hasKey svcDefaults kv.1) = true
        · rw [if_pos hcol] at h
          exact Except.noConfusion h
        · rw [if_neg hcol] at h
          cases h
          exact ⟨hk2, rfl, rfl, .inl ⟨rfl, rfl, by simpa using hcol, rfl⟩⟩
      · by_cases hreg : pyLower s = "regression"
        · rw [hreg] at h
          unfold buildModel pyKwargs at h
          rw [if_neg (by decide), if_pos rfl] at h
          by_cases hcol : (ps.any fun kv => Params.hasKey svrDefaults kv.1) = true
          · rw [if_pos hcol] at h
            exact Except.noConfusion h
          · rw [if_neg hcol] at h
            cases h
            exact ⟨hk2, rfl, rfl, .inr ⟨rfl, rfl, by simpa using hcol, rfl⟩⟩
        · unfold buildModel at h
          rw [if_neg hcls, if_neg hreg] at h
          exact Except.noConfusion h
    | int n => exact Except.noConfusion h
    | rat q => exact Except.noConfusion h
    | bool b => exact Except.noConfusion h
    | pyNone => exact Except.noConfusion h

theorem svm_construct_classification (ps : Params)
    (hk : Params.hasKey ps "task" = false)
    (hcol : (ps.any fun kv => Params.hasKey svcDefaults kv.1) = false) :
    construct (.str "classification") ps =
      .ok ⟨.str "classification", ps, ⟨.svc, svcDefaults ++ ps, false⟩⟩ := by
  unfold construct
  rw [if_neg (by simp [hk])]
  simp only [Val.lowerStr, pyLower_classification]
  unfold buildModel pyKwargs
  rw [if_pos rfl, if_neg (by simp [hcol])]

theorem svm_construct_regression (ps : Params)
    (hk : Params.hasKey ps "task" = false)
    (hcol : (ps.any fun kv => Params.hasKey svrDefaults kv.1) = false) :
    construct (.str "regression") ps =
      .ok ⟨.str "regression", ps, ⟨.svr, svrDefaults ++ ps, false⟩⟩ := by
  unfold construct
  rw [if_neg (by simp [hk])]
  simp only [Val.lowerStr, pyLower_regression]
  unfold buildModel pyKwargs
  rw [if_neg (by decide), if_pos rfl, if_neg (by simp [hcol])]

theorem svm_applyUpdates_cons (a : SVMModel) (kv : String × Val) (ps : Params) :
    applyUpdates a (kv :: ps) =
      applyUpdates (if kv.1 == "task" then { a with task := kv.2 }
        else { a with svm_params := Params.setKey a.svm_params kv.1 kv.2 })
        ps := rfl

theorem svm_applyUpdates_model (a : SVMModel) (ps : Params) :
    (applyUpdates a ps).model = a.model := by
  induction ps generalizing a with
  | nil => rfl
  | cons kv ps ih =>
    rw [svm_applyUpdates_cons]
    by_cases hk : (kv.1 == "task") = true
    · rw [if_pos hk]
      exact ih _
    · rw [if_neg hk]
      exact ih _

theorem svm_applyUpdates_task_keep (a : SVMModel) (ps : Params)
    (h : ∀ kv ∈ ps, kv.1 ≠ "task") :
    (applyUpdates a ps).task = a.task := by
  induction ps generalizing a with
  | nil => rfl
  | cons kv ps ih =>
    have hne : (kv.1 == "task") = false := by
      simp [h kv (by simp)]
    rw [svm_applyUpdates_cons, if_neg (by simp [hne])]
    exact ih _ (fun kv2 hm => h kv2 (by simp [hm]))

theorem svm_applyUpdates_params_no_task (a : SVMModel) (ps : Params)
    (h : Params.hasKey a.svm_params "task" = false) :
    Params.hasKey (applyUpdates a ps).svm_params "task" = false := by
  induction ps generalizing a with
  | nil => exact h
  | cons kv ps ih =>
    rw [svm_applyUpdates_cons]
    by_cases hk : (kv.1 == "task") = true
    · rw [if_pos hk]
      exact ih _ h
    · rw [if_neg hk]
      exact ih _ (Params.hasKey_setKey_ne _ _ _ _ h (by simpa using hk))

theorem svm_initOn_ok {a a2 : SVMModel} {task : Val} {ps : Params}
    (h : initOn a task ps = (a2, none)) :
    ∃ s, task = .str s ∧ a2.task = .str (pyLower s) ∧ a2.svm_params = ps ∧
      buildModel (pyLower s) ps = .ok a2.model := by
  cases task with
  | str s =>
    simp only [initOn, Val.lowerStr] at h
    cases hb : buildModel (pyLower s) ps with
    | ok m =>
      rw [hb] at h
      rw [Prod.mk.injEq] at h
      obtain ⟨h1, h2⟩ := h
      subst h1
      exact ⟨s, rfl, rfl, rfl, hb⟩
    | error e =>
      rw [hb] at h
      have h2 := congrArg Prod.snd h
      simp at h2
  | int n => simp [initOn, Val.lowerStr] at h
  | rat q => simp [initOn, Val.lowerStr] at h
  | bool b => simp [initOn, Val.lowerStr] at h
  | pyNone => simp [initOn, Val.lowerStr] at h

theorem svm_setParams_ok {a a2 : SVMModel} {ps : Params}
    (h : setParams a ps = (a2, none)) :
    ∃ s, a2.task = .str s ∧ buildModel s a2.svm_params = .ok a2.model ∧
      a2.model.fitted = false := by
  unfold setParams at h
  split at h
  · exact absurd (congrArg Prod.snd h) (by simp)
  · obtain ⟨s, hs, ht, hp, hb⟩ := svm_initOn_ok h
    rw [← hp] at hb
    exact ⟨pyLower s, ht, hb, svm_buildModel_ok_fitted hb⟩

theorem svm_initOn_valueError (a : SVMModel) (s : String) (ps : Params)
    (h1 : pyLower s ≠ "classification") (h2 : pyLower s ≠ "regression") :
    initOn a (.str s) ps =
      ({ a with task := .str (pyLower s), svm_params := ps },
        some .valueError) := by
  simp only [initOn, Val.lowerStr]
  rw [show buildModel (pyLower s) ps = .error .valueError from by
    unfold buildModel
    rw [if_neg h1, if_neg h2]]

end SVMModel

/-! ### Metric lemmas -/

theorem accuracy_score_ok_bounds (yTrue yPred : List ℚ)
    (hlen : yTrue.length = yPred.length) (hne : yTrue ≠ []) :
    ∃ v, accuracy_score yTrue yPred = .ok v ∧ 0 ≤ v ∧ v ≤ 1 := by
  have hpos : (0 : ℚ) < (yTrue.length : ℚ) := by
    exact_mod_cast List.length_pos.mpr hne
  refine ⟨(((yTrue.zip yPred).countP (fun p => decide (p.1 = p.2))) : ℚ) /
    (yTrue.length : ℚ), ?_, ?_, ?_⟩
  · unfold accuracy_score
    rw [if_pos hlen]
  · exact div_nonneg (Nat.cast_nonneg _) hpos.le
  · rw [div_le_one hpos]
    have hcount : (yTrue.zip yPred).countP (fun p => decide (p.1 = p.2)) ≤
        yTrue.length := by
      calc (yTrue.zip yPred).countP (fun p => decide (p.1 = p.2))
          ≤ (yTrue.zip yPred).length := List.countP_le_length _
        _ = min yTrue.length yPred.length := List.length_zip yTrue yPred
        _ ≤ yTrue.length := min_le_left _ _
    exact_mod_cast hcount

theorem mean_squared_error_ok_nonneg (yTrue yPred : List ℚ)
    (hlen : yTrue.length = yPred.length) :
    ∃ v, mean_squared_error yTrue yPred = .ok v ∧ 0 ≤ v := by
  refine ⟨(((yTrue.zip yPred).map (fun p => (p.1 - p.2) ^ 2)).sum) /
    (yTrue.length : ℚ), ?_, ?_⟩
  · unfold mean_squared_error
    rw [if_pos hlen]
  · refine div_nonneg (List.sum_nonneg ?_) (Nat.cast_nonneg _)
    intro x hx
    obtain ⟨p, hp, rfl⟩ := List.mem_map.mp hx
    positivity

/-! ### Concrete test fixtures -/

/-- The classification boosted-tree adapter built by
`LightGBM(task="classification")` with no extra keyword arguments. -/
def lgbmClf : LightGBM :=
  ⟨.str "classification", [], ⟨.lgbmClassifier, lgbmDefaults, false⟩⟩

/-- The same adapter after a fit: the delegate carries fitted state. -/
def lgbmClfFitted : LightGBM :=
  ⟨.str "classification", [], ⟨.lgbmClassifier, lgbmDefaults, true⟩⟩

/-- The classification SVM adapter built by `SVMModel(task="classification")`
with no extra keyword arguments. -/
def svmClf : SVMModel :=
  ⟨.str "classification", [], ⟨.svc, svcDefaults, false⟩⟩

/-- The same adapter after a fit: the delegate carries fitted state. -/
def svmClfFitted : SVMModel :=
  ⟨.str "classification", [], ⟨.svc, svcDefaults, true⟩⟩

/-! ### Claim theorems -/

/-- C1: evidence that the code contradicts the claim (and its own demo
blocks).  Supplying a value for a hyperparameter name that the constructor
also passes explicitly, such as `n_estimators` or `C`, makes the delegate
call expression raise a TypeError (keyword argument given twice) instead of
letting the caller's value override the default.  The inputs below are the
very calls the two modules' demo blocks perform. -/
theorem construct_override_default_raises_typeError :
    LightGBM.construct (.str "classification") [("n_estimators", .int 200),
      ("max_depth", .int 5)] = .error .typeError ∧
    LightGBM.construct (.str "regression") [("n_estimators", .int 200),
      ("learning_rate", .rat 0.05)] = .error .typeError ∧
    SVMModel.construct (.str "classification") [("C", .rat 0.5),
      ("kernel", .str "linear")] = .error .typeError ∧
    SVMModel.construct (.str "regression") [("C", .rat 0.5),
      ("kernel", .str "linear")] = .error .typeError :=
  ⟨rfl, rfl, rfl, rfl⟩

/-- C2 (counterexample): the claim fails on the code at concrete inputs, in
two ways.  The SVM wrapper's `fit` has no optional parameters, so a call
supplying `eval_set` and `early_stopping_rounds` raises a TypeError rather
than enabling early stopping; and the boosted-tree wrapper performs a plain
fit when both optionals are supplied but `early_stopping_rounds` is the
falsy 0, rather than passing them through. -/
theorem fit_optional_args_counterexample :
    SVMModel.fitKw svmClf [] [] (some [.int 1]) (some 10) =
      .error .typeError ∧
    (LightGBM.fit lgbmClf [] [] (some [.int 1]) (some 0)).2 =
      .plain [] [] :=
  ⟨rfl, rfl⟩

/-- C2 (amended): the boosted-tree wrapper's `fit` passes `eval_set` and
`early_stopping_rounds` through to the delegate fit (with `verbose=False`)
exactly when both are supplied and truthy, and performs a plain delegate fit
of X and y otherwise; the SVM wrapper's `fit` accepts only X and y (a call
supplying either optional keyword raises a TypeError) and always performs a
plain fit. -/
theorem fit_early_stopping_dispatch :
    (∀ (a : LightGBM) (X : Mat) (y : List ℚ) (l : List Val) (n : Int),
      l ≠ [] → n ≠ 0 →
      (LightGBM.fit a X y (some l) (some n)).2 =
        .earlyStopping X y l n false) ∧
    (∀ (a : LightGBM) (X : Mat) (y : List ℚ) (es : Option (List Val))
        (r : Option Int),
      optListTruthy es = false ∨ optIntTruthy r = false →
      (LightGBM.fit a X y es r).2 = .plain X y) ∧
    (∀ (a : SVMModel) (X : Mat) (y : List ℚ),
      SVMModel.fitKw a X y none none = .ok (SVMModel.fit a X y) ∧
      (SVMModel.fit a X y).2 = .plain X y) ∧
    (∀ (a : SVMModel) (X : Mat) (y : List ℚ) (es : Option (List Val))
        (r : Option Int),
      es.isSome ∨ r.isSome →
      SVMModel.fitKw a X y es r = .error .typeError) := by
  refine ⟨?_, ?_, ?_, ?_⟩
  · intro a X y l n hl hn
    have hc : (optListTruthy (some l) && optIntTruthy (some n)) = true := by
      simp [optListTruthy, optIntTruthy, hl, hn]
    unfold LightGBM.fit
    rw [if_pos hc]
    rfl
  · intro a X y es r h
    have hc : (optListTruthy es && optIntTruthy r) = true → False := by
      intro hc
      rcases h with h | h <;> simp [h] at hc
    unfold LightGBM.fit
    rw [if_neg hc]
  · intro a X y
    exact ⟨rfl, rfl⟩
  · intro a X y es r h
    unfold SVMModel.fitKw
    rw [if_pos (by rcases h with h | h <;> simp [h])]

/-- C2 witness: the amended dispatch at concrete inputs, covering the
pass-through branch, the falsy branch and the SVM TypeError branch. -/
theorem fit_early_stopping_dispatch_witness :
    (LightGBM.fit lgbmClf [] [] (some [.int 1]) (some 7)).2 =
      .earlyStopping [] [] [.int 1] 7 false ∧
    (LightGBM.fit lgbmClf [] [] none none).2 = .plain [] [] ∧
    SVMModel.fitKw svmClf [] [] (some [.int 1]) none =
      .error .typeError :=
  ⟨fit_early_stopping_dispatch.1 lgbmClf [] [] [.int 1] 7 (by decide)
      (by decide),
   fit_early_stopping_dispatch.2.1 lgbmClf [] [] none none (.inl rfl),
   fit_early_stopping_dispatch.2.2.2 svmClf [] [] (some [.int 1]) none
      (.inl rfl)⟩

/-- C3 (counterexample): the task value "Classification" is not one of the
two recognized values, yet construction succeeds on both wrappers, because
the constructors lowercase the task before checking it. -/
theorem construct_mixed_case_task_accepted :
    "Classification" ≠ "classification" ∧
    "Classification" ≠ "regression" ∧
    LightGBM.construct (.str "Classification") [] = .ok lgbmClf ∧
    SVMModel.construct (.str "Classification") [] = .ok svmClf :=
  ⟨by decide, by decide, rfl, rfl⟩

/-- C3 (amended): for every task string whose lowercase form is neither
"classification" nor "regression" and every params mapping (one not
repeating the `task` keyword, which the call expression would reject
first), construction fails with the invalid-argument ValueError on both
wrappers, so no adapter is produced. -/
theorem construct_invalid_task_valueError :
    ∀ (s : String) (ps : Params),
      pyLower s ≠ "classification" → pyLower s ≠ "regression" →
      Params.hasKey ps "task" = false →
      LightGBM.construct (.str s) ps = .error .valueError ∧
      SVMModel.construct (.str s) ps = .error .valueError := by
  intro s ps h1 h2 hk
  constructor
  · unfold LightGBM.construct
    rw [if_neg (by simp [hk])]
    simp only [Val.lowerStr]
    rw [show LightGBM.buildModel (pyLower s) ps = .error .valueError from by
      unfold LightGBM.buildModel
      rw [if_neg h1, if_neg h2]]
  · unfold SVMModel.construct
    rw [if_neg (by simp [hk])]
    simp only [Val.lowerStr]
    rw [show SVMModel.buildModel (pyLower s) ps = .error .valueError from by
      unfold SVMModel.buildModel
      rw [if_neg h1, if_neg h2]]

/-- C3 witness: the amended theorem applied at task="invalid" with a
non-empty params mapping. -/
theorem construct_invalid_task_valueError_witness :
    LightGBM.construct (.str "invalid") [("n_estimators", .int 50)] =
      .error .valueError ∧
    SVMModel.construct (.str "invalid") [("n_estimators", .int 50)] =
      .error .valueError :=
  construct_invalid_task_valueError "invalid" [("n_estimators", .int 50)]
    (by decide) (by decide) (by decide)

/-- C4: on every successfully constructed adapter of either wrapper,
`predict_proba(X)` fails exactly when the stored task is regression or the
delegate lacks probability support, and on a classification adapter whose
delegate supports probabilities it returns the delegate's probability
estimates. -/
theorem predict_proba_support_iff :
    (∀ (t : Val) (ps : Params) (a : LightGBM) (X : Mat),
      LightGBM.construct t ps = .ok a →
      (((LightGBM.predict_proba a X).isOk = false) ↔
        (a.task = .str "regression" ∨ a.model.hasPredictProba = false)) ∧
      (a.task = .str "classification" → a.model.hasPredictProba = true →
        LightGBM.predict_proba a X = .ok ⟨a.model, X⟩)) ∧
    (∀ (t : Val) (ps : Params) (a : SVMModel) (X : Mat),
      SVMModel.construct t ps = .ok a →
      (((SVMModel.predict_proba a X).isOk = false) ↔
        (a.task = .str "regression" ∨ a.model.hasPredictProba = false)) ∧
      (a.task = .str "classification" → a.model.hasPredictProba = true →
        SVMModel.predict_proba a X = .ok ⟨a.model, X⟩)) := by
  constructor
  · intro t ps a X h
    obtain ⟨hk, hps, hf, hcol, hmp, hdisj⟩ := LightGBM.construct_ok h
    rcases hdisj with ⟨htask, hkind⟩ | ⟨htask, hkind⟩
    · have hp : a.model.hasPredictProba = true := by
        unfold Model.hasPredictProba
        rw [hkind]
      have hpp : LightGBM.predict_proba a X = .ok ⟨a.model, X⟩ := by
        unfold LightGBM.predict_proba Model.callPredictProba
        rw [if_pos htask, if_pos hp]
      refine ⟨?_, fun _ _ => hpp⟩
      rw [hpp]
      simp [Except.isOk, Except.toBool, htask, hp]
    · have hpp : LightGBM.predict_proba a X = .error .attributeError := by
        unfold LightGBM.predict_proba
        rw [if_neg (show ¬(a.task = Val.str "classification") from by
          rw [htask]; decide)]
      refine ⟨?_, ?_⟩
      · rw [hpp]
        simp [Except.isOk, Except.toBool, htask]
      · intro hcls _
        rw [htask] at hcls
        exact absurd hcls (by decide)
  · intro t ps a X h
    obtain ⟨hk, hps, hf, hdisj⟩ := SVMModel.svm_construct_ok h
    rcases hdisj with ⟨htask, hkind, hcol, hmparams⟩ |
      ⟨htask, hkind, hcol, hmparams⟩
    · have hp : a.model.hasPredictProba = true := by
        unfold Model.hasPredictProba
        rw [hkind, hmparams]
        rfl
      have hpp : SVMModel.predict_proba a X = .ok ⟨a.model, X⟩ := by
        unfold SVMModel.predict_proba Model.callPredictProba
        rw [if_pos ⟨htask, hp⟩, if_pos hp]
      refine ⟨?_, fun _ _ => hpp⟩
      rw [hpp]
      simp [Except.isOk, Except.toBool, htask, hp]
    · have hp : a.model.hasPredictProba = false := by
        unfold Model.hasPredictProba
        rw [hkind]
      have hpp : SVMModel.predict_proba a X = .error .attributeError := by
        unfold SVMModel.predict_proba
        rw [if_neg (show ¬(a.task = Val.str "classification" ∧
            a.model.hasPredictProba = true) from fun hcon => by
          rw [htask] at hcon
          exact absurd hcon.1 (by decide))]
      refine ⟨?_, ?_⟩
      · rw [hpp]
        simp [Except.isOk, Except.toBool, htask]
      · intro hcls _
        rw [htask] at hcls
        exact absurd hcls (by decide)

/-- C4 witness: on the two freshly constructed classification fixtures,
`predict_proba` succeeds with the delegate's probability estimates. -/
theorem predict_proba_support_iff_witness :
    LightGBM.predict_proba lgbmClf [] = .ok ⟨lgbmClf.model, []⟩ ∧
    SVMModel.predict_proba svmClf [] = .ok ⟨svmClf.model, []⟩ :=
  ⟨(predict_proba_support_iff.1 (.str "classification") [] lgbmClf []
      rfl).2 rfl rfl,
   (predict_proba_support_iff.2 (.str "classification") [] svmClf []
      rfl).2 rfl rfl⟩

/-- C5: on a classification adapter of either wrapper, a successful
`set_params(task="regression")` call yields an adapter whose subsequent
`predict_proba` call raises the not-supported AttributeError. -/
theorem set_task_regression_blocks_predict_proba :
    (∀ (t : Val) (ps : Params) (a a2 : LightGBM) (X : Mat),
      LightGBM.construct t ps = .ok a → a.task = .str "classification" →
      LightGBM.setParams a [("task", .str "regression")] = (a2, none) →
      LightGBM.predict_proba a2 X = .error .attributeError) ∧
    (∀ (t : Val) (ps : Params) (a a2 : SVMModel) (X : Mat),
      SVMModel.construct t ps = .ok a → a.task = .str "classification" →
      SVMModel.setParams a [("task", .str "regression")] = (a2, none) →
      SVMModel.predict_proba a2 X = .error .attributeError) := by
  constructor
  · intro t ps a a2 X hc htask hsp
    unfold LightGBM.setParams at hsp
    split at hsp
    · have h2 := congrArg Prod.snd hsp
      simp at h2
    · obtain ⟨s, hs, ht2, hp2, hb2⟩ := LightGBM.initOn_ok hsp
      have hs2 : Val.str "regression" = Val.str s := by
        rw [← hs]
        rw [show LightGBM.applyUpdates a [("task", Val.str "regression")] =
          { a with task := .str "regression" } from rfl]
      obtain rfl : s = "regression" := (Val.str.inj hs2).symm
      rw [pyLower_regression] at ht2
      unfold LightGBM.predict_proba
      rw [if_neg (show ¬(a2.task = Val.str "classification") from by
        rw [ht2]; decide)]
  · intro t ps a a2 X hc htask hsp
    unfold SVMModel.setParams at hsp
    split at hsp
    · have h2 := congrArg Prod.snd hsp
      simp at h2
    · obtain ⟨s, hs, ht2, hp2, hb2⟩ := SVMModel.svm_initOn_ok hsp
      have hs2 : Val.str "regression" = Val.str s := by
        rw [← hs]
        rw [show SVMModel.applyUpdates a [("task", Val.str "regression")] =
          { a with task := .str "regression" } from rfl]
      obtain rfl : s = "regression" := (Val.str.inj hs2).symm
      rw [pyLower_regression] at ht2
      unfold SVMModel.predict_proba
      rw [if_neg (show ¬(a2.task = Val.str "classification" ∧
          a2.model.hasPredictProba = true) from fun hcon => by
        rw [ht2] at hcon
        exact absurd hcon.1 (by decide))]

/-- C5 witness: the theorem applied to the two classification fixtures; the
adapters produced by `set_params(task="regression")` reject
`predict_proba`. -/
theorem set_task_regression_blocks_predict_proba_witness :
    LightGBM.predict_proba
      ⟨.str "regression", [], ⟨.lgbmRegressor, lgbmDefaults, false⟩⟩ [] =
      .error .attributeError ∧
    SVMModel.predict_proba
      ⟨.str "regression", [], ⟨.svr, svrDefaults, false⟩⟩ [] =
      .error .attributeError :=
  ⟨set_task_regression_blocks_predict_proba.1 (.str "classification") []
      lgbmClf _ [] rfl rfl rfl,
   set_task_regression_blocks_predict_proba.2 (.str "classification") []
      svmClf _ [] rfl rfl rfl⟩

/-- C6: `get_params` round-trips through construction: building a new
adapter from a constructed adapter's `get_params()` dictionary succeeds and
the new adapter's `get_params()` output is identical (stated via
`Except.map`). -/
theorem get_params_roundtrip :
    (∀ (t : Val) (ps : Params) (a : LightGBM),
      (ps.map Prod.fst).Nodup →
      LightGBM.construct t ps = .ok a →
      Except.map LightGBM.get_params
          (LightGBM.constructFromDict (LightGBM.get_params a)) =
        .ok (LightGBM.get_params a)) ∧
    (∀ (t : Val) (ps : Params) (a : SVMModel),
      (ps.map Prod.fst).Nodup →
      SVMModel.construct t ps = .ok a →
      Except.map SVMModel.get_params
          (SVMModel.constructFromDict (SVMModel.get_params a)) =
        .ok (SVMModel.get_params a)) := by
  constructor
  · intro t ps a hnd h
    obtain ⟨hk, hps, hf, hcol, hmp, hdisj⟩ := LightGBM.construct_ok h
    have hgp : LightGBM.get_params a = ("task", a.task) :: ps := by
      unfold LightGBM.get_params
      rw [hps]
      exact Params.union_single _ _ _ hk hnd
    rcases hdisj with ⟨htask, hkind⟩ | ⟨htask, hkind⟩
    · rw [hgp, htask]
      rw [show LightGBM.constructFromDict
          (("task", Val.str "classification") :: ps) =
          LightGBM.construct (.str "classification")
            (Params.eraseKey ps "task") from rfl]
      rw [Params.eraseKey_of_no_key ps "task" hk,
        LightGBM.construct_classification ps hk hcol]
      simp only [Except.map]
      rw [show LightGBM.get_params ⟨Val.str "classification", ps,
          ⟨.lgbmClassifier, lgbmDefaults ++ ps, false⟩⟩ =
          Params.union [("task", Val.str "classification")] ps from rfl]
      rw [Params.union_single _ _ _ hk hnd]
    · rw [hgp, htask]
      rw [show LightGBM.constructFromDict
          (("task", Val.str "regression") :: ps) =
          LightGBM.construct (.str "regression")
            (Params.eraseKey ps "task") from rfl]
      rw [Params.eraseKey_of_no_key ps "task" hk,
        LightGBM.construct_regression ps hk hcol]
      simp only [Except.map]
      rw [show LightGBM.get_params ⟨Val.str "regression", ps,
          ⟨.lgbmRegressor, lgbmDefaults ++ ps, false⟩⟩ =
          Params.union [("task", Val.str "regression")] ps from rfl]
      rw [Params.union_single _ _ _ hk hnd]
  · intro t ps a hnd h
    obtain ⟨hk, hps, hf, hdisj⟩ := SVMModel.svm_construct_ok h
    have hgp : SVMModel.get_params a = ("task", a.task) :: ps := by
      unfold SVMModel.get_params
      rw [hps]
      exact Params.union_single _ _ _ hk hnd
    rcases hdisj with ⟨htask, hkind, hcol, hmparams⟩ |
      ⟨htask, hkind, hcol, hmparams⟩
    · rw [hgp, htask]
      rw [show SVMModel.constructFromDict
          (("task", Val.str "classification") :: ps) =
          SVMModel.construct (.str "classification")
            (Params.eraseKey ps "task") from rfl]
      rw [Params.eraseKey_of_no_key ps "task" hk,
        SVMModel.svm_construct_classification ps hk hcol]
      simp only [Except.map]
      rw [show SVMModel.get_params ⟨Val.str "classification", ps,
          ⟨.svc, svcDefaults ++ ps, false⟩⟩ =
          Params.union [("task", Val.str "classification")] ps from rfl]
      rw [Params.union_single _ _ _ hk hnd]
    · rw [hgp, htask]
      rw [show SVMModel.constructFromDict
          (("task", Val.str "regression") :: ps) =
          SVMModel.construct (.str "regression")
            (Params.eraseKey ps "task") from rfl]
      rw [Params.eraseKey_of_no_key ps "task" hk,
        SVMModel.svm_construct_regression ps hk hcol]
      simp only [Except.map]
      rw [show SVMModel.get_params ⟨Val.str "regression", ps,
          ⟨.svr, svrDefaults ++ ps, false⟩⟩ =
          Params.union [("task", Val.str "regression")] ps from rfl]
      rw [Params.union_single _ _ _ hk hnd]

/-- C6 witness: the round-trip at a concrete classification adapter of each
wrapper carrying one extra hyperparameter. -/
theorem get_params_roundtrip_witness :
    Except.map LightGBM.get_params
        (LightGBM.constructFromDict (LightGBM.get_params
          ⟨.str "classification", [("n_jobs", .int 4)],
            ⟨.lgbmClassifier, lgbmDefaults ++ [("n_jobs", .int 4)],
              false⟩⟩)) =
      .ok (LightGBM.get_params
        ⟨.str "classification", [("n_jobs", .int 4)],
          ⟨.lgbmClassifier, lgbmDefaults ++ [("n_jobs", .int 4)],
            false⟩⟩) ∧
    Except.map SVMModel.get_params
        (SVMModel.constructFromDict (SVMModel.get_params
          ⟨.str "classification", [("tol", .int 1)],
            ⟨.svc, svcDefaults ++ [("tol", .int 1)], false⟩⟩)) =
      .ok (SVMModel.get_params
        ⟨.str "classification", [("tol", .int 1)],
          ⟨.svc, svcDefaults ++ [("tol", .int 1)], false⟩⟩) :=
  ⟨get_params_roundtrip.1 (.str "classification") [("n_jobs", .int 4)] _
      (by decide) rfl,
   get_params_roundtrip.2 (.str "classification") [("tol", .int 1)] _
      (by decide) rfl⟩

/-- The regression boosted-tree adapter built by
`LightGBM(task="regression")` with no extra keyword arguments. -/
def lgbmReg : LightGBM :=
  ⟨.str "regression", [], ⟨.lgbmRegressor, lgbmDefaults, false⟩⟩

/-- The regression SVM adapter built by `SVMModel(task="regression")` with
no extra keyword arguments. -/
def svmReg : SVMModel :=
  ⟨.str "regression", [], ⟨.svr, svrDefaults, false⟩⟩

/-- C7: on an adapter of either wrapper whose task is classification, with a
non-empty label vector matching the delegate's prediction length, `evaluate`
returns the accuracy of the delegate's predictions against the labels, a
value in the closed interval [0, 1].  `lib` supplies the external delegate's
predictions, which the wrapper treats as opaque. -/
theorem evaluate_classification_accuracy_bounds :
    (∀ (lib : Model → Mat → List ℚ) (a : LightGBM) (X : Mat) (y : List ℚ),
      a.task = .str "classification" → y ≠ [] →
      y.length = (lib a.model X).length →
      ∃ v, LightGBM.evaluate lib a X y = .ok (some v) ∧
        accuracy_score y (lib a.model X) = .ok v ∧ 0 ≤ v ∧ v ≤ 1) ∧
    (∀ (lib : Model → Mat → List ℚ) (a : SVMModel) (X : Mat) (y : List ℚ),
      a.task = .str "classification" → y ≠ [] →
      y.length = (lib a.model X).length →
      ∃ v, SVMModel.evaluate lib a X y = .ok (some v) ∧
        accuracy_score y (lib a.model X) = .ok v ∧ 0 ≤ v ∧ v ≤ 1) := by
  constructor
  · intro lib a X y htask hne hlen
    obtain ⟨v, hv, h0, h1⟩ :=
      accuracy_score_ok_bounds y (lib a.model X) hlen hne
    refine ⟨v, ?_, hv, h0, h1⟩
    unfold LightGBM.evaluate
    rw [if_pos htask, hv]
  · intro lib a X y htask hne hlen
    obtain ⟨v, hv, h0, h1⟩ :=
      accuracy_score_ok_bounds y (lib a.model X) hlen hne
    refine ⟨v, ?_, hv, h0, h1⟩
    unfold SVMModel.evaluate
    rw [if_pos htask, hv]

/-- C7 witness: evaluation on the classification fixtures with one label and
a delegate predicting that label. -/
theorem evaluate_classification_accuracy_bounds_witness :
    (∃ v, LightGBM.evaluate (fun _ _ => [0]) lgbmClf [] [0] =
        .ok (some v) ∧
      accuracy_score [0] [0] = .ok v ∧ 0 ≤ v ∧ v ≤ 1) ∧
    (∃ v, SVMModel.evaluate (fun _ _ => [0]) svmClf [] [0] =
        .ok (some v) ∧
      accuracy_score [0] [0] = .ok v ∧ 0 ≤ v ∧ v ≤ 1) :=
  ⟨evaluate_classification_accuracy_bounds.1 (fun _ _ => [0]) lgbmClf []
      [0] rfl (by decide) rfl,
   evaluate_classification_accuracy_bounds.2 (fun _ _ => [0]) svmClf []
      [0] rfl (by decide) rfl⟩

/-- C8: on an adapter of either wrapper whose task is regression, with a
non-empty label vector matching the delegate's prediction length, `evaluate`
returns the mean squared error of the delegate's predictions against the
labels, a non-negative value. -/
theorem evaluate_regression_mse_nonneg :
    (∀ (lib : Model → Mat → List ℚ) (a : LightGBM) (X : Mat) (y : List ℚ),
      a.task = .str "regression" → y ≠ [] →
      y.length = (lib a.model X).length →
      ∃ v, LightGBM.evaluate lib a X y = .ok (some v) ∧
        mean_squared_error y (lib a.model X) = .ok v ∧ 0 ≤ v) ∧
    (∀ (lib : Model → Mat → List ℚ) (a : SVMModel) (X : Mat) (y : List ℚ),
      a.task = .str "regression" → y ≠ [] →
      y.length = (lib a.model X).length →
      ∃ v, SVMModel.evaluate lib a X y = .ok (some v) ∧
        mean_squared_error y (lib a.model X) = .ok v ∧ 0 ≤ v) := by
  constructor
  · intro lib a X y htask hne hlen
    obtain ⟨v, hv, h0⟩ := mean_squared_error_ok_nonneg y (lib a.model X) hlen
    refine ⟨v, ?_, hv, h0⟩
    unfold LightGBM.evaluate
    rw [if_neg (show ¬(a.task = Val.str "classification") from by
      rw [htask]; decide), if_pos htask, hv]
  · intro lib a X y htask hne hlen
    obtain ⟨v, hv, h0⟩ := mean_squared_error_ok_nonneg y (lib a.model X) hlen
    refine ⟨v, ?_, hv, h0⟩
    unfold SVMModel.evaluate
    rw [if_neg (show ¬(a.task = Val.str "classification") from by
      rw [htask]; decide), if_pos htask, hv]

/-- C8 witness: evaluation on the regression fixtures with one label and a
delegate predicting that label. -/
theorem evaluate_regression_mse_nonneg_witness :
    (∃ v, LightGBM.evaluate (fun _ _ => [0]) lgbmReg [] [0] =
        .ok (some v) ∧
      mean_squared_error [0] [0] = .ok v ∧ 0 ≤ v) ∧
    (∃ v, SVMModel.evaluate (fun _ _ => [0]) svmReg [] [0] =
        .ok (some v) ∧
      mean_squared_error [0] [0] = .ok v ∧ 0 ≤ v) :=
  ⟨evaluate_regression_mse_nonneg.1 (fun _ _ => [0]) lgbmReg [] [0]
      rfl (by decide) rfl,
   evaluate_regression_mse_nonneg.2 (fun _ _ => [0]) svmReg [] [0]
      rfl (by decide) rfl⟩

/-- C9: after every successful `set_params` call on either wrapper — even
one that changes no parameter values — the stored delegate is exactly the
unfitted estimator the constructor dispatch freshly builds from the
adapter's updated task and merged hyperparameter mapping; in particular any
fitted state of the previous delegate is gone. -/
theorem set_params_rebuilds_fresh_delegate :
    (∀ (a a2 : LightGBM) (ps : Params) (s : String),
      LightGBM.setParams a ps = (a2, none) → a2.task = .str s →
      a2.model.fitted = false ∧
      LightGBM.buildModel s a2.lgbm_params = .ok a2.model) ∧
    (∀ (a a2 : SVMModel) (ps : Params) (s : String),
      SVMModel.setParams a ps = (a2, none) → a2.task = .str s →
      a2.model.fitted = false ∧
      SVMModel.buildModel s a2.svm_params = .ok a2.model) := by
  constructor
  · intro a a2 ps s h hts
    obtain ⟨s2, ht2, hb2, hf2⟩ := LightGBM.setParams_ok h
    obtain rfl : s2 = s := Val.str.inj (ht2.symm.trans hts)
    exact ⟨hf2, hb2⟩
  · intro a a2 ps s h hts
    obtain ⟨s2, ht2, hb2, hf2⟩ := SVMModel.svm_setParams_ok h
    obtain rfl : s2 = s := Val.str.inj (ht2.symm.trans hts)
    exact ⟨hf2, hb2⟩

/-- C9 witness: a `set_params()` call that changes nothing, on fitted
fixtures of both wrappers: the delegate afterwards is the fresh unfitted
build from the stored mapping. -/
theorem set_params_rebuilds_fresh_delegate_witness :
    ((LightGBM.setParams lgbmClfFitted []).1.model.fitted = false ∧
      LightGBM.buildModel "classification"
          (LightGBM.setParams lgbmClfFitted []).1.lgbm_params =
        .ok (LightGBM.setParams lgbmClfFitted []).1.model) ∧
    ((SVMModel.setParams svmClfFitted []).1.model.fitted = false ∧
      SVMModel.buildModel "classification"
          (SVMModel.setParams svmClfFitted []).1.svm_params =
        .ok (SVMModel.setParams svmClfFitted []).1.model) :=
  ⟨set_params_rebuilds_fresh_delegate.1 lgbmClfFitted _ [] "classification"
      rfl rfl,
   set_params_rebuilds_fresh_delegate.2 svmClfFitted _ [] "classification"
      rfl rfl⟩

/-- C10 (counterexample): `set_params(task="Bogus")` on a classification
boosted-tree adapter raises the ValueError, but afterwards the stored task
field holds "bogus" — the lowercase form `__init__` assigned before
raising — not the rejected value "Bogus" itself. -/
theorem set_params_invalid_task_counterexample :
    LightGBM.setParams lgbmClf [("task", .str "Bogus")] =
      (⟨.str "bogus", [], ⟨.lgbmClassifier, lgbmDefaults, false⟩⟩,
        some .valueError) ∧
    Val.str "bogus" ≠ Val.str "Bogus" :=
  ⟨rfl, by decide⟩

/-- C10 (amended): a `set_params` call on either wrapper whose mapping sends
`task` to a string whose lowercase form is neither "classification" nor
"regression" raises the same invalid-argument ValueError as construction;
afterwards the stored task field holds the lowercase form of the rejected
value (assigned by the re-run `__init__` before it raised) while the
delegate is still the one from before the call — the failed update is not
rolled back.  The mapping may carry further non-`task` entries, and the
adapter's stored mapping is assumed `task`-free, as every reachable adapter
state is. -/
theorem set_params_invalid_task_state :
    (∀ (a : LightGBM) (s : String) (rest : Params),
      (∀ kv ∈ rest, kv.1 ≠ "task") →
      Params.hasKey a.lgbm_params "task" = false →
      pyLower s ≠ "classification" → pyLower s ≠ "regression" →
      (LightGBM.setParams a (("task", .str s) :: rest)).2 =
          some .valueError ∧
      (LightGBM.setParams a (("task", .str s) :: rest)).1.task =
          .str (pyLower s) ∧
      (LightGBM.setParams a (("task", .str s) :: rest)).1.model =
          a.model) ∧
    (∀ (a : SVMModel) (s : String) (rest : Params),
      (∀ kv ∈ rest, kv.1 ≠ "task") →
      Params.hasKey a.svm_params "task" = false →
      pyLower s ≠ "classification" → pyLower s ≠ "regression" →
      (SVMModel.setParams a (("task", .str s) :: rest)).2 =
          some .valueError ∧
      (SVMModel.setParams a (("task", .str s) :: rest)).1.task =
          .str (pyLower s) ∧
      (SVMModel.setParams a (("task", .str s) :: rest)).1.model =
          a.model) := by
  constructor
  · intro a s rest hrest hk h1 h2
    have hb : LightGBM.applyUpdates a (("task", Val.str s) :: rest) =
        LightGBM.applyUpdates { a with task := .str s } rest := rfl
    have htask :
        (LightGBM.applyUpdates { a with task := Val.str s } rest).task =
          Val.str s :=
      LightGBM.applyUpdates_task_keep _ rest hrest
    have hmodel :
        (LightGBM.applyUpdates { a with task := Val.str s } rest).model =
          a.model :=
      LightGBM.applyUpdates_model _ rest
    have hkb : Params.hasKey
        (LightGBM.applyUpdates { a with task := Val.str s }
          rest).lgbm_params "task" = false :=
      LightGBM.applyUpdates_params_no_task _ rest hk
    unfold LightGBM.setParams
    rw [hb, if_neg (by simp [hkb]), htask,
      LightGBM.initOn_valueError _ s _ h1 h2]
    exact ⟨rfl, rfl, hmodel⟩
  · intro a s rest hrest hk h1 h2
    have hb : SVMModel.applyUpdates a (("task", Val.str s) :: rest) =
        SVMModel.applyUpdates { a with task := .str s } rest := rfl
    have htask :
        (SVMModel.applyUpdates { a with task := Val.str s } rest).task =
          Val.str s :=
      SVMModel.svm_applyUpdates_task_keep _ rest hrest
    have hmodel :
        (SVMModel.applyUpdates { a with task := Val.str s } rest).model =
          a.model :=
      SVMModel.svm_applyUpdates_model _ rest
    have hkb : Params.hasKey
        (SVMModel.applyUpdates { a with task := Val.str s }
          rest).svm_params "task" = false :=
      SVMModel.svm_applyUpdates_params_no_task _ rest hk
    unfold SVMModel.setParams
    rw [hb, if_neg (by simp [hkb]), htask,
      SVMModel.svm_initOn_valueError _ s _ h1 h2]
    exact ⟨rfl, rfl, hmodel⟩

/-- C10 witness: the amended theorem at `set_params(task="Bogus")` on the
classification fixtures of both wrappers. -/
theorem set_params_invalid_task_state_witness :
    ((LightGBM.setParams lgbmClf [("task", .str "Bogus")]).2 =
        some .valueError ∧
      (LightGBM.setParams lgbmClf [("task", .str "Bogus")]).1.task =
        .str "bogus" ∧
      (LightGBM.setParams lgbmClf [("task", .str "Bogus")]).1.model =
        lgbmClf.model) ∧
    ((SVMModel.setParams svmClf [("task", .str "Bogus")]).2 =
        some .valueError ∧
      (SVMModel.setParams svmClf [("task", .str "Bogus")]).1.task =
        .str "bogus" ∧
      (SVMModel.setParams svmClf [("task", .str "Bogus")]).1.model =
        svmClf.model) :=
  ⟨set_params_invalid_task_state.1 lgbmClf "Bogus" [] (by simp)
      (by decide) (by decide) (by decide),
   set_params_invalid_task_state.2 svmClf "Bogus" [] (by simp)
      (by decide) (by decide) (by decide)⟩
